import Mathlib

/-!
# Verification of the CBC liquidity-mining report bot (`src/bot.py`)

Shallow embedding of the computation engine of `bot.py`: the timestamp
normalizer, USD value reconstruction, the cash-flow window aggregators
(daily broad-match and weekly strict-match), the debt resolver, the
net-value and APR calculators, the numeric cores of the daily and weekly
report builders, and the message chunking of `send_telegram`.

Modelling conventions:
* Python floats are modelled as `ℚ` (the source only performs field
  arithmetic); Python ints as `ℤ`/`ℕ`.
* A scalar field of an upstream JSON record is a `Field`: absent (or
  JSON null), present but not numeric, or a numeric value.
* Fallible conversions (`to_f`, `int(...)`) return `Option`.
* Timezone-aware datetimes are identified with their epoch seconds:
  `datetime.fromtimestamp(ts, JST)` is strictly monotone in `ts`, so the
  window comparisons of the source are order-isomorphic to integer
  comparisons on epoch seconds.
* Python `or` on numbers (truthiness: `None`, `0` and `0.0` are falsy)
  is modelled explicitly by `pyOrD` / `pyOrOpt`.
-/

namespace CBCBot

/-- A scalar field read off an upstream record with `dict.get`:
`absent` (key missing or value `null`), `bad` (present but not parseable
as a number, e.g. a non-numeric string), or a numeric value (Python
int/float, modelled as `ℚ`). -/
inductive Field where
  | absent
  | bad
  | num (q : ℚ)
deriving DecidableEq, Repr

/-- `to_f(x)` (bot.py:37-41): `float(x)`, `None` on failure. -/
def to_f : Field → Option ℚ
  | .absent => none
  | .bad => none
  | .num q => some q

/-- `to_f(x, default)` with a numeric default (bot.py:37, used at bot.py:529). -/
def to_fD (f : Field) (d : ℚ) : ℚ := (to_f f).getD d

/-- Python `x or d` where `x` is an optional number and `d` a number:
the first *truthy* operand, i.e. `x` unless it is `None` or `0`. -/
def pyOrD (x : Option ℚ) (d : ℚ) : ℚ :=
  match x with
  | none => d
  | some q => if q = 0 then d else q

/-- Python `x or y` on two optional numbers (left operand wins iff it is
present and nonzero). -/
def pyOrOpt (x y : Option ℚ) : Option ℚ :=
  match x with
  | none => y
  | some q => if q = 0 then y else some q

/-- Python whitespace for `str.strip()` (ASCII range). -/
def isSpace (c : Char) : Bool :=
  c = ' ' || c = '\t' || c = '\n' || c = '\r' || c = '\x0b' || c = '\x0c'

/-- `str.strip()` on the character list of a string. -/
def trimChars (l : List Char) : List Char :=
  ((l.dropWhile isSpace).reverse.dropWhile isSpace).reverse

/-- `str.lower()` on one character (ASCII; the event tags in play are ASCII). -/
def asciiLower (c : Char) : Char :=
  if 'A' ≤ c ∧ c ≤ 'Z' then Char.ofNat (c.toNat + 32) else c

/-- `_lower(s)` (bot.py:58-59): `str(s or "").strip().lower()`, for an
optional string (absent field ⇒ `""`). -/
def lowerTag (s : Option String) : String :=
  ⟨(trimChars (s.getD "").data).map asciiLower⟩

/-- Python `int()` applied to a number: truncation toward zero. -/
def pyInt (q : ℚ) : ℤ := if 0 ≤ q then ⌊q⌋ else ⌈q⌉

/-- `_to_ts_sec(ts)` (bot.py:62-69): integer conversion (`None` on
failure), then `//= 1000` when the value exceeds `10_000_000_000`.
Python `//` is floor division, which agrees with `Int` division on the
reachable branch (`ts_i > 10^10 > 0`). -/
def to_ts_sec : Field → Option ℤ
  | .absent => none
  | .bad => none
  | .num q =>
    let n := pyInt q
    some (if n > 10000000000 then n / 1000 else n)

/-- Python `k in t` for strings: substring containment. -/
def strIn (k t : String) : Bool := decide (List.IsInfix k.data t.data)

/-- Broad type policy of the daily aggregator (bot.py:338):
`any(k in t for k in ("fee", "collect", "claim"))`. -/
def broadMatch (t : String) : Bool :=
  strIn "fee" t || strIn "collect" t || strIn "claim" t

/-- Strict type policy of the weekly aggregator (bot.py:425):
`t not in ("fees-collected", "claimed-fees")` negated. -/
def strictMatch (t : String) : Bool :=
  t = "fees-collected" || t = "claimed-fees"

/-- One cash-flow event record.  The fields are exactly the keys
`bot.py` reads off an event dict; `price0_usd`/`price1_usd` stand for
`prices.token0.usd` / `prices.token1.usd` (a missing `prices` dict or a
missing `tokenN` sub-dict both yield an absent `usd`). -/
structure CashFlow where
  type : Option String := none
  timestamp : Field := .absent
  amount_usd : Field := .absent
  usd : Field := .absent
  value_usd : Field := .absent
  valueUsd : Field := .absent
  amountUsd : Field := .absent
  total_debt : Field := .absent
  price0_usd : Field := .absent
  price1_usd : Field := .absent
  collected_fees_token0 : Field := .absent
  claimed_token0 : Field := .absent
  fees0 : Field := .absent
  amount0 : Field := .absent
  collected_fees_token1 : Field := .absent
  claimed_token1 : Field := .absent
  fees1 : Field := .absent
  amount1 : Field := .absent
deriving DecidableEq, Repr

/-- One position record, with the fields `bot.py` reads.  `cash_flows`
models `pos.get("cash_flows") or []` already coalesced to a list (a
non-list value makes every consumer skip/return-zero exactly like an
empty list does). -/
structure Position where
  nft_id : Option String := none
  underlying_value : Field := .absent
  fees_value : Field := .absent
  in_range : Option Bool := none
  cash_flows : List CashFlow := []
deriving DecidableEq, Repr

/-! ## Debt resolver (`extract_repay_usd_from_cash_flows`, bot.py:227-281) -/

/-- One iteration of the `total_debt` scan (bot.py:235-245); state is
`(latest, latest_ts)`.  The timestamp is `to_f(cf.get("timestamp")) or 0`
— the *raw* parsed value, not normalized via `_to_ts_sec`. -/
def debtScanStep (s : Option ℚ × ℚ) (cf : CashFlow) : Option ℚ × ℚ :=
  let t := lowerTag cf.type
  if t = "lendor-borrow" ∨ t = "lendor-repay" then
    match to_f cf.total_debt with
    | none => s
    | some td =>
      let ts := pyOrD (to_f cf.timestamp) 0
      if ts ≥ s.2 then (some td, ts) else s
  else s

/-- The `total_debt` scan of bot.py:234-245 (`latest` starts `None`,
`latest_ts` starts `-1`). -/
def debtLatest (cfs : List CashFlow) : Option ℚ :=
  (cfs.foldl debtScanStep (none, -1)).1

/-- The `is None`-coalescing USD alias chain of bot.py:261-269 (a
present `0` value *stops* this chain, unlike the `or`-chains below). -/
def usdAlias (cf : CashFlow) : Option ℚ :=
  (to_f cf.amount_usd).orElse fun _ =>
  (to_f cf.usd).orElse fun _ =>
  (to_f cf.value_usd).orElse fun _ =>
  (to_f cf.valueUsd).orElse fun _ =>
  to_f cf.amountUsd

/-- The borrow-minus-repay fallback of bot.py:251-281, clamped at 0. -/
def debtFallback (cfs : List CashFlow) : ℚ :=
  let br := cfs.foldl
    (fun (br : ℚ × ℚ) cf =>
      let t := lowerTag cf.type
      if t = "lendor-borrow" ∨ t = "lendor-repay" then
        match usdAlias cf with
        | none => br
        | some v => if t = "lendor-borrow" then (br.1 + |v|, br.2) else (br.1, br.2 + |v|)
      else br)
    (0, 0)
  let debt := br.1 - br.2
  if debt > 0 then debt else 0

/-- `extract_repay_usd_from_cash_flows` (bot.py:227-281): the latest
`total_debt` snapshot (clamped at 0) when one exists, else the
borrow-minus-repay fallback. -/
def extract_repay_usd_from_cash_flows (pos : Position) : ℚ :=
  match debtLatest pos.cash_flows with
  | some latest => max latest 0
  | none => debtFallback pos.cash_flows

/-- `calc_net_usd` (bot.py:284-289): `None` when `underlying_value` does
not parse; otherwise pooled minus debt (the source's `... or 0.0` on the
debt is Python truthiness, kept as `pyOrD`). -/
def calc_net_usd (pos : Position) : Option ℚ :=
  match to_f pos.underlying_value with
  | none => none
  | some pooled => some (pooled - pyOrD (some (extract_repay_usd_from_cash_flows pos)) 0)

/-- `calc_fee_apr_a` (bot.py:295-301): `fee / net * 365 * 100`, `None`
when either argument is `None` or `net <= 0`. -/
def calc_fee_apr_a (fee : Option ℚ) (net : Option ℚ) : Option ℚ :=
  match fee, net with
  | none, _ => none
  | some _, none => none
  | some f, some n => if n ≤ 0 then none else some (f / n * 365 * 100)

/-! ## Value reconstruction (bot.py:349-371 and its verbatim copy 436-458) -/

/-- The Python `or`-chain over the four quantity aliases plus default
(bot.py:356-369): `to_f(a) or to_f(b) or to_f(c) or to_f(d) or 0.0`.
Truthiness: a value that parses to `0` *falls through* to the next
alias. -/
def qtyChain (a b c d : Field) : ℚ :=
  pyOrD (pyOrOpt (to_f a) (pyOrOpt (to_f b) (pyOrOpt (to_f c) (to_f d)))) 0

/-- bot.py:349-376: the USD amount the aggregators work with — explicit
`amount_usd` when it parses, else `|q0|*p0 + |q1|*p1` from the alias
chains and the embedded price snapshot (`... or 0.0` on each price).
The trailing `float(amt_usd)` of the source always succeeds here. -/
def resolvedAmt (cf : CashFlow) : ℚ :=
  match to_f cf.amount_usd with
  | some v => v
  | none =>
    let p0 := pyOrD (to_f cf.price0_usd) 0
    let p1 := pyOrD (to_f cf.price1_usd) 0
    let q0 := qtyChain cf.collected_fees_token0 cf.claimed_token0 cf.fees0 cf.amount0
    let q1 := qtyChain cf.collected_fees_token1 cf.claimed_token1 cf.fees1 cf.amount1
    |q0| * p0 + |q1| * p1

/-- The window test of bot.py:346 / bot.py:433, written exactly as the
source's skip condition: *skip* iff `ts_dt < start_dt or ts_dt >= end_dt`
(datetimes identified with epoch seconds). -/
def inWindowSrc (start_s end_s ts : ℤ) : Bool :=
  !(decide (ts < start_s) || decide (ts ≥ end_s))

/-! ## Daily aggregator (`calc_fee_usd_24h_from_cash_flows`, bot.py:307-398)

`DEBUG_FEE_TRACE` is a *local variable* of this Python function: its only
assignment (bot.py:335) sits directly after a `continue` and is
unreachable, yet it still makes the name function-local, so the guard
`if DEBUG_FEE_TRACE:` (bot.py:381) raises `UnboundLocalError` the first
time an event passes every filter.  Consequently the accumulation lines
392-396 are unreachable: the faithful model raises (`Except.error ()`)
as soon as an event qualifies, and only ever returns the untouched
initial accumulator. -/

/-- Accumulator of the daily aggregator: running total, count, and the
per-NFT dicts (association lists). -/
structure DailyAgg where
  total : ℚ
  total_count : ℕ
  fee_by_nft : List (String × ℚ)
  count_by_nft : List (String × ℕ)
deriving DecidableEq, Repr

/-- `d.get(k, default)` on an association list. -/
def getVal {α : Type} (m : List (String × α)) (k : String) (d : α) : α :=
  match m with
  | [] => d
  | (k', v) :: rest => if k' = k then v else getVal rest k d

/-- `d[k] = v` on an association list (replace first binding or append). -/
def setVal {α : Type} (m : List (String × α)) (k : String) (v : α) : List (String × α) :=
  match m with
  | [] => [(k, v)]
  | (k', v') :: rest => if k' = k then (k, v) :: rest else (k', v') :: setVal rest k v

/-- One iteration of the daily event loop (bot.py:332-396), faithful to
the source: filters in source order, then the `UnboundLocalError` raise
at the `DEBUG_FEE_TRACE` guard, modelled as `Except.error ()`. -/
def dailyStep (start_s end_s : ℤ) (st : DailyAgg) (cf : CashFlow) : Except Unit DailyAgg :=
  if broadMatch (lowerTag cf.type) then
    match to_ts_sec cf.timestamp with
    | none => .ok st
    | some ts =>
      if inWindowSrc start_s end_s ts then
        if 0 < resolvedAmt cf then .error () else .ok st
      else .ok st
  else .ok st

/-- `calc_fee_usd_24h_from_cash_flows` (bot.py:307-398), faithful model.
The JST window `[end-24h, end)` is passed as epoch seconds.  The raise
propagates out of both loops (no `try` in the source), hence `foldlM`
over `Except`. -/
def calc_fee_usd_24h_from_cash_flows (posList : List Position) (start_s end_s : ℤ) :
    Except Unit DailyAgg :=
  posList.foldlM (fun st pos => pos.cash_flows.foldlM (dailyStep start_s end_s) st)
    ⟨0, 0, [], []⟩

/-- One iteration of the daily event loop with the line-335/381 slip
patched out: the intended accumulation of bot.py:392-396.  The
`... or 0.0` / `... or 0` around the dict lookups are identities on the
looked-up defaults and are folded into `getVal`. -/
def dailyStepPatched (start_s end_s : ℤ) (key : String) (st : DailyAgg) (cf : CashFlow) :
    DailyAgg :=
  if broadMatch (lowerTag cf.type) then
    match to_ts_sec cf.timestamp with
    | none => st
    | some ts =>
      if inWindowSrc start_s end_s ts then
        if 0 < resolvedAmt cf then
          { total := st.total + resolvedAmt cf
            total_count := st.total_count + 1
            fee_by_nft := setVal st.fee_by_nft key (getVal st.fee_by_nft key 0 + resolvedAmt cf)
            count_by_nft := setVal st.count_by_nft key (getVal st.count_by_nft key 0 + 1) }
        else st
      else st
  else st

/-- The daily aggregator as intended (debug-trace slip removed); the
per-position key is `str(pos.get("nft_id", "UNKNOWN"))` (bot.py:327). -/
def calc_fee_usd_24h_patched (posList : List Position) (start_s end_s : ℤ) : DailyAgg :=
  posList.foldl
    (fun st pos =>
      pos.cash_flows.foldl (dailyStepPatched start_s end_s (pos.nft_id.getD "UNKNOWN")) st)
    ⟨0, 0, [], []⟩

/-! ## Weekly aggregator (`calc_fees_usd_in_window_from_cash_flows`, bot.py:404-471) -/

/-- One iteration of the weekly event loop (bot.py:420-469): strict type
match, window test, then `if amt_usd <= 0: continue`. -/
def weeklyStep (start_s end_s : ℤ) (st : ℚ × ℕ) (cf : CashFlow) : ℚ × ℕ :=
  if strictMatch (lowerTag cf.type) then
    match to_ts_sec cf.timestamp with
    | none => st
    | some ts =>
      if inWindowSrc start_s end_s ts then
        if resolvedAmt cf ≤ 0 then st else (st.1 + resolvedAmt cf, st.2 + 1)
      else st
  else st

/-- `calc_fees_usd_in_window_from_cash_flows` (bot.py:404-471): returns
`(total, count)` for the window `[start, end)` in epoch seconds. -/
def calc_fees_usd_in_window_from_cash_flows (posList : List Position) (start_s end_s : ℤ) :
    ℚ × ℕ :=
  posList.foldl (fun st pos => pos.cash_flows.foldl (weeklyStep start_s end_s) st) (0, 0)

/-! ## Report rendering boundaries (`fmt_money` / `fmt_pct`, bot.py:44-55)

What these formatters distinguish is whether `float(x)` succeeds: `None`
renders as `"N/A"`, a number renders as a formatted numeral.  The
decimal formatting itself carries no information the claims need, so the
render target keeps the number. -/

/-- Result of `fmt_money` (bot.py:44-48). -/
inductive Money where
  | na
  | usd (q : ℚ)
deriving DecidableEq, Repr

def fmt_money : Option ℚ → Money
  | none => .na
  | some q => .usd q

/-- Result of `fmt_pct` (bot.py:51-55). -/
inductive Pct where
  | na
  | pct (q : ℚ)
deriving DecidableEq, Repr

def fmt_pct : Option ℚ → Pct
  | none => .na
  | some q => .pct q

/-! ## Daily report numeric core (`build_daily_report_for_safe`, bot.py:486-601) -/

/-- bot.py:526: `net = float(calc_net_usd(pos) or 0.0)` — an undefined
net is coerced to `0.0` *before* anything is rendered or totalled. -/
def dailyNet (pos : Position) : ℚ := pyOrD (calc_net_usd pos) 0

/-- The Net money shown on a position's own report line
(bot.py:548 / bot.py:558): `fmt_money(net)` for the coerced `net`. -/
def daily_line_net (pos : Position) : Money := fmt_money (some (dailyNet pos))

/-- bot.py:529: `fees_value = float(to_f(pos.get("fees_value"), 0.0) or 0.0)`. -/
def dailyFeesValue (pos : Position) : ℚ := pyOrD (some (to_fD pos.fees_value 0)) 0

/-- The group-level numbers of the daily report. -/
structure DailySummary where
  fee_usd : ℚ
  fee_count : ℕ
  fee_by_nft : List (String × ℚ)
  net_total : ℚ
  unclaimed_total : ℚ
  apr_base_usd : ℚ
  safe_fee_apr : Option ℚ
deriving Repr

/-- The open-positions accumulation and group summary of
`build_daily_report_for_safe` (bot.py:514-567), parameterized by the
accumulator the daily aggregator returned: the realized-fee figures are
taken from that accumulator (bot.py:510-511), the net and unclaimed
totals are folded over the *open* positions only (bot.py:520-530), and
the APR base and SAFE APR follow bot.py:566-567. -/
def dailySummaryFrom (agg : DailyAgg) (openPos : List Position) : DailySummary :=
  let totals := openPos.foldl
    (fun (acc : ℚ × ℚ) pos => (acc.1 + dailyNet pos, acc.2 + dailyFeesValue pos)) (0, 0)
  let apr_base := pyOrD (some agg.total) 0 + pyOrD (some totals.2) 0
  { fee_usd := agg.total
    fee_count := agg.total_count
    fee_by_nft := agg.fee_by_nft
    net_total := totals.1
    unclaimed_total := totals.2
    apr_base_usd := apr_base
    safe_fee_apr := calc_fee_apr_a (some apr_base) (some totals.1) }

/-- Faithful numeric core of `build_daily_report_for_safe`
(bot.py:486-601): the daily aggregator is invoked on
`pos_list_open + pos_list_exited` (bot.py:504-511) with no `try` around
it, so its `UnboundLocalError` raise (see
`calc_fee_usd_24h_from_cash_flows`) propagates out of the builder; only
when the aggregator returns does the open-positions loop run and the
summary get produced. -/
def build_daily_report_run (openPos exitedPos : List Position) (start_s end_s : ℤ) :
    Except Unit DailySummary :=
  match calc_fee_usd_24h_from_cash_flows (openPos ++ exitedPos) start_s end_s with
  | .error err => .error err
  | .ok agg => .ok (dailySummaryFrom agg openPos)

/-! ## Weekly report numeric core (`build_weekly_report_for_safe`, bot.py:607-661) -/

structure WeeklySummary where
  fee_7d_usd : ℚ
  tx_7d : ℕ
  fee_all_time_usd : ℚ
  net_total : ℚ
  avg_daily : ℚ
  weekly_apr_pct : ℚ
deriving Repr

/-- Numeric core of `build_weekly_report_for_safe` (bot.py:607-631):
7-day and all-time fees over open + exited positions, net over open
positions only, `avg_daily = fee_7d / 7`, and
`weekly_apr_pct = (fee_7d / net_total) * 52 * 100 if net_total > 0 else 0.0`
— note the `else 0.0`: a defined number, not `None`. -/
def build_weekly_summary (openPos exitedPos : List Position)
    (start_s end_s allTime_s : ℤ) : WeeklySummary :=
  let all := openPos ++ exitedPos
  let w := calc_fees_usd_in_window_from_cash_flows all start_s end_s
  let a := calc_fees_usd_in_window_from_cash_flows all allTime_s end_s
  let net_total := openPos.foldl (fun acc pos => acc + dailyNet pos) 0
  { fee_7d_usd := w.1
    tx_7d := w.2
    fee_all_time_usd := a.1
    net_total := net_total
    avg_daily := w.1 / 7
    weekly_apr_pct := if net_total > 0 then w.1 / net_total * 52 * 100 else 0 }

/-! ## Message chunking (`send_telegram`, bot.py:146-191)

Only the pure splitting logic is modelled (the HTTP delivery is an
external sink).  Strings are represented by their character lists; the
input is `s.split("\n")`, whose pieces are newline-free. -/

/-- One iteration of the splitting loop (bot.py:164-174); state is
`(chunks, buf)`. -/
def tgStep (maxLen : ℕ) (st : List (List Char) × List Char) (line : List Char) :
    List (List Char) × List Char :=
  let candidate := if st.2 ≠ [] then st.2 ++ '\n' :: line else line
  if candidate.length > maxLen then
    if st.2 ≠ [] then (st.1 ++ [st.2], line)
    else (st.1 ++ [line.take maxLen], line.drop maxLen)
  else (st.1, candidate)

/-- The chunk list `send_telegram` would post (bot.py:157-177):
`max_len = 3800`, fold the lines, flush a nonempty trailing buffer. -/
def send_telegram_chunks (lines : List (List Char)) : List (List Char) :=
  let st := lines.foldl (tgStep 3800) ([], [])
  if st.2 ≠ [] then st.1 ++ [st.2] else st.1

/-! ## Spec-side reference definitions (for refinement comparisons) -/

/-- Modelled from the spec: claim C2's reading of the quantity alias
chain — the first *present, non-null* value among the ordered aliases
(a present `0` is selected and stops the chain), default `0`. -/
def qtyChainFirstPresent (a b c d : Field) : ℚ :=
  ((to_f a).orElse fun _ =>
   (to_f b).orElse fun _ =>
   (to_f c).orElse fun _ => to_f d).getD 0

/-- Modelled from the spec: claim C3's reading of the `total_debt` scan,
with timestamps normalized to epoch seconds (`_to_ts_sec`) before
comparison (unparsable ⇒ `0`), ties broken last-wins. -/
def debtLatestNormalized (cfs : List CashFlow) : Option ℚ :=
  (cfs.foldl
    (fun (s : Option ℚ × ℤ) cf =>
      let t := lowerTag cf.type
      if t = "lendor-borrow" ∨ t = "lendor-repay" then
        match to_f cf.total_debt with
        | none => s
        | some td =>
          let ts := (to_ts_sec cf.timestamp).getD 0
          if ts ≥ s.2 then (some td, ts) else s
      else s)
    (none, -1)).1

/-- The `(total_debt, raw timestamp)` pairs of the borrow/repay events
that carry a parseable `total_debt`, in scan order. -/
def drEvents (cfs : List CashFlow) : List (ℚ × ℚ) :=
  cfs.filterMap fun cf =>
    let t := lowerTag cf.type
    if t = "lendor-borrow" ∨ t = "lendor-repay" then
      (to_f cf.total_debt).map fun td => (td, pyOrD (to_f cf.timestamp) 0)
    else none

/-- The scan's running maximum timestamp, with its `-1` sentinel. -/
def maxTsFrom (evs : List (ℚ × ℚ)) : ℚ := evs.foldl (fun m e => max m e.2) (-1)

/-- Declarative selection: the `total_debt` of the *last* event whose
timestamp attains `maxTsFrom` (none when no event reaches the `-1`
sentinel). -/
def lastAtMax (evs : List (ℚ × ℚ)) : Option ℚ :=
  ((evs.filter fun e => decide (e.2 = maxTsFrom evs)).getLast?).map Prod.fst

/-- The pure content of one `total_debt`-scan update, on the event list. -/
def rawStep (s : Option ℚ × ℚ) (e : ℚ × ℚ) : Option ℚ × ℚ :=
  if e.2 ≥ s.2 then (some e.1, e.2) else s

/-! ## Concrete records used as test vectors -/

/-- A position carrying no `underlying_value` (and nothing else). -/
def posNoPool : Position := {}

/-- A fee event whose first quantity alias is present with value `0` and
whose second alias is `5`, with token0 priced at `$1`. -/
def cfC2 : CashFlow :=
  { price0_usd := .num 1, collected_fees_token0 := .num 0, claimed_token0 := .num 5 }

/-- A reconstruction input whose embedded token0 price is negative. -/
def cfNegPrice : CashFlow :=
  { price0_usd := .num (-1), collected_fees_token0 := .num 1 }

/-- An event on which no USD amount at all can be resolved (everything
absent): its reconstructed amount is `0`. -/
def cfZeroRec : CashFlow := {}

/-- A collected-fees event of `$10` at `t = 50` epoch seconds. -/
def cfFee : CashFlow :=
  { type := some "fees-collected", timestamp := .num 50, amount_usd := .num 10 }

def posFee : Position := { nft_id := some "1", cash_flows := [cfFee] }

/-- A position holding exactly one cash-flow event. -/
def singlePos (cf : CashFlow) : Position := { cash_flows := [cf] }

/-- `total_debt = 80` stamped in epoch *seconds* (2023-11-14). -/
def cfDebtSec : CashFlow :=
  { type := some "lendor-borrow", total_debt := .num 80, timestamp := .num 1700000100 }

/-- `total_debt = 100` stamped in epoch *milliseconds* — an instant
(2020-09-13) strictly before `cfDebtSec`, but numerically larger raw. -/
def cfDebtMs : CashFlow :=
  { type := some "lendor-repay", total_debt := .num 100, timestamp := .num 1600000000000 }

def posC3 : Position := { cash_flows := [cfDebtSec, cfDebtMs] }

/-- The spec's Debt Resolver vector: `total_debt` 100 at `t = 10`, then
80 at `t = 20`. -/
def posSpecDebt : Position :=
  { cash_flows :=
      [{ type := some "lendor-borrow", total_debt := .num 100, timestamp := .num 10 },
       { type := some "lendor-repay", total_debt := .num 80, timestamp := .num 20 }] }

/-- A short, newline-free line. -/
def tinyLine : List Char := ['h', 'i']

/-! # Helper lemmas -/

theorem pyInt_intCast (n : ℤ) : pyInt (n : ℚ) = n := by
  unfold pyInt
  split <;> simp

theorem to_ts_sec_intCast (n : ℤ) :
    to_ts_sec (Field.num (n : ℚ)) = some (if n > 10000000000 then n / 1000 else n) := by
  simp [to_ts_sec, pyInt_intCast]

/-- The source's skip condition (bot.py:346 / 433) is exactly half-open
membership. -/
theorem inWindowSrc_iff (s e ts : ℤ) : inWindowSrc s e ts = true ↔ s ≤ ts ∧ ts < e := by
  simp only [inWindowSrc, Bool.not_eq_true', Bool.or_eq_false_iff, decide_eq_false_iff_not,
    not_lt, ge_iff_le, not_le]

/-! # Claim theorems -/

/-- C5: the Timestamp Normalizer `_to_ts_sec` returns an integer input
unchanged when it does not exceed 10,000,000,000 (in particular
9,999,999,999 ↦ 9,999,999,999), integer-divides by 1000 when it exceeds
10,000,000,000 (in particular 10,000,000,001 ↦ 10,000,000), and yields
undefined (`none`) on input that fails integer conversion. -/
theorem C5_timestamp_normalizer :
    (∀ n : ℤ, n ≤ 10000000000 → to_ts_sec (Field.num (n : ℚ)) = some n) ∧
    (∀ n : ℤ, 10000000000 < n → to_ts_sec (Field.num (n : ℚ)) = some (n / 1000)) ∧
    to_ts_sec (Field.num 9999999999) = some 9999999999 ∧
    to_ts_sec (Field.num 10000000001) = some 10000000 ∧
    to_ts_sec Field.bad = none ∧
    to_ts_sec Field.absent = none := by
  refine ⟨fun n hn => ?_, fun n hn => ?_, by decide, by decide, rfl, rfl⟩
  · rw [to_ts_sec_intCast, if_neg (by omega)]
  · rw [to_ts_sec_intCast, if_pos (by omega)]

/-- Witness for C5 at the two boundary-adjacent integers. -/
theorem C5_timestamp_normalizer_witness :
    to_ts_sec (Field.num ((9999999999 : ℤ) : ℚ)) = some 9999999999 ∧
    to_ts_sec (Field.num ((10000000001 : ℤ) : ℚ)) = some (10000000001 / 1000) :=
  ⟨C5_timestamp_normalizer.1 9999999999 (by norm_num),
   C5_timestamp_normalizer.2.1 10000000001 (by norm_num)⟩

/-- C1 (counterexample): for a position whose pooled value is absent,
`calc_net_usd` is indeed undefined (`none`), but the per-position report
line renders `$0.00` (`Money.usd 0`), not `"N/A"`: bot.py:526 coerces
the undefined net with `float(calc_net_usd(pos) or 0.0)` before the line
is built, contradicting the claim that the undefined value propagates to
the line. -/
theorem C1_counterexample :
    calc_net_usd posNoPool = none ∧
    daily_line_net posNoPool = Money.usd 0 ∧
    daily_line_net posNoPool ≠ Money.na := by
  refine ⟨rfl, rfl, by decide⟩

/-- C1 (amended): when the pooled value field is absent or non-numeric,
`calc_net_usd` returns undefined, but the daily report coerces the
undefined net to `0` both on the per-position line (rendered `$0.00`,
never `"N/A"`) and in the group-level net total. -/
theorem C1_net_undefined_coerced (pos : Position)
    (h : to_f pos.underlying_value = none) :
    calc_net_usd pos = none ∧ dailyNet pos = 0 ∧ daily_line_net pos = Money.usd 0 := by
  have hnet : calc_net_usd pos = none := by
    unfold calc_net_usd
    rw [h]
  have hd : dailyNet pos = 0 := by
    unfold dailyNet
    rw [hnet]
    rfl
  refine ⟨hnet, hd, ?_⟩
  unfold daily_line_net
  rw [hd]
  rfl

/-- Witness for C1 (amended) at `posNoPool`. -/
theorem C1_net_undefined_coerced_witness :
    calc_net_usd posNoPool = none ∧ dailyNet posNoPool = 0 ∧
    daily_line_net posNoPool = Money.usd 0 :=
  C1_net_undefined_coerced posNoPool rfl

/-- C2 (counterexample): with `collected_fees_token0` present and equal
to `0` and `claimed_token0 = 5`, the chain does consult the later alias
(Python `or` treats the parsed `0.0` as falsy): the resolved quantity is
`5` and the reconstructed amount is `$5`, whereas the claim's
first-present rule (`qtyChainFirstPresent`) would stop at the present
`0`. -/
theorem C2_counterexample :
    resolvedAmt cfC2 = 5 ∧
    qtyChain (Field.num 0) (Field.num 5) Field.absent Field.absent = 5 ∧
    qtyChainFirstPresent (Field.num 0) (Field.num 5) Field.absent Field.absent = 0 := by
  refine ⟨?_, by decide, by decide⟩
  norm_num [resolvedAmt, cfC2, qtyChain, pyOrOpt, pyOrD, to_f, abs_of_nonneg]

/-- C2 (amended): the per-side quantity chain of the Value Reconstructor
resolves to the first *present, non-null, nonzero* parsed value among
the ordered aliases — a present value of `0` (or a non-numeric value)
falls through to the later aliases — and defaults to `0` when no alias
parses to a nonzero value. -/
theorem C2_alias_chain_first_nonzero (a b c d : Field) :
    qtyChain a b c d =
      ((([a, b, c, d].filterMap to_f).filter fun q => decide (q ≠ 0)).head?).getD 0 := by
  rcases a with _ | _ | qa <;> rcases b with _ | _ | qb <;>
    rcases c with _ | _ | qc <;> rcases d with _ | _ | qd <;>
    simp [qtyChain, pyOrOpt, pyOrD, to_f, List.filterMap_cons] <;>
    split_ifs <;> simp_all <;> split_ifs <;> simp_all

/-- C6 (counterexample): a group whose single open position has no
pooled value gives `net_total = 0`, yet the weekly APR is the *defined*
value `0.0` (rendered `0.00%`), not undefined/`N/A` — contradicting the
claim that APR is undefined whenever net value ≤ 0 for the weekly (52)
cadence as well. -/
theorem C6_counterexample :
    (build_weekly_summary [posNoPool] [] 0 604800 (-1)).net_total = 0 ∧
    fmt_pct (some (build_weekly_summary [posNoPool] [] 0 604800 (-1)).weekly_apr_pct) =
      Pct.pct 0 ∧
    fmt_pct (some (build_weekly_summary [posNoPool] [] 0 604800 (-1)).weekly_apr_pct) ≠
      Pct.na := by
  refine ⟨?_, ?_, ?_⟩ <;>
    · norm_num [build_weekly_summary, calc_fees_usd_in_window_from_cash_flows, posNoPool,
        dailyNet, calc_net_usd, to_f, pyOrD, fmt_pct, weeklyStep]
      try decide

/-- C6 (amended): the daily/per-position Yield Calculator
`calc_fee_apr_a` computes `fee / net × 365 × 100` and is undefined
(`none`) whenever either input is undefined or `net ≤ 0`; in particular
`net = 100, fee = 5` yields `1825`.  The weekly cadence computes
`fee_7d / net_total × 52 × 100` when `net_total > 0` but yields the
*defined* value `0` (not undefined) when `net_total ≤ 0`. -/
theorem C6_yield_calculator (f n : ℚ) (op ex : List Position) (s e a : ℤ) :
    calc_fee_apr_a (some f) (some n) = (if n ≤ 0 then none else some (f / n * 365 * 100)) ∧
    calc_fee_apr_a none (some n) = none ∧
    calc_fee_apr_a (some f) none = none ∧
    calc_fee_apr_a (some 5) (some 100) = some 1825 ∧
    (build_weekly_summary op ex s e a).weekly_apr_pct =
      (if (build_weekly_summary op ex s e a).net_total > 0
       then (build_weekly_summary op ex s e a).fee_7d_usd /
              (build_weekly_summary op ex s e a).net_total * 52 * 100
       else 0) := by
  refine ⟨rfl, rfl, rfl, by norm_num [calc_fee_apr_a], rfl⟩

/-- C7 (counterexample): reconstruction is *not* always nonnegative — an
event with an embedded negative price (`prices.token0.usd = -1`) and
quantity `1` reconstructs to `-1 < 0`. -/
theorem C7_counterexample :
    to_f cfNegPrice.amount_usd = none ∧ resolvedAmt cfNegPrice < 0 := by
  refine ⟨rfl, ?_⟩
  norm_num [resolvedAmt, cfNegPrice, qtyChain, pyOrOpt, pyOrD, to_f, abs_of_nonneg]

/-- C7 (amended): the reconstructed amount `|q0|·p0 + |q1|·p1` is
nonnegative whenever the (defaulted) snapshot prices are nonnegative,
and a resolved amount ≤ 0 — explicit or reconstructed — contributes to
no total and no count: it leaves the weekly accumulator, the faithful
daily step (no raise) and the patched daily accumulator unchanged. -/
theorem C7_nonneg_and_no_contribution (cf : CashFlow) (s e : ℤ) (key : String)
    (st : DailyAgg) (w : ℚ × ℕ) :
    (to_f cf.amount_usd = none → 0 ≤ pyOrD (to_f cf.price0_usd) 0 →
      0 ≤ pyOrD (to_f cf.price1_usd) 0 → 0 ≤ resolvedAmt cf) ∧
    (resolvedAmt cf ≤ 0 → weeklyStep s e w cf = w) ∧
    (resolvedAmt cf ≤ 0 → dailyStep s e st cf = .ok st) ∧
    (resolvedAmt cf ≤ 0 → dailyStepPatched s e key st cf = st) := by
  refine ⟨fun h hp0 hp1 => ?_, fun hle => ?_, fun hle => ?_, fun hle => ?_⟩
  · unfold resolvedAmt
    rw [h]
    exact add_nonneg (mul_nonneg (abs_nonneg _) hp0) (mul_nonneg (abs_nonneg _) hp1)
  · unfold weeklyStep
    cases hb : strictMatch (lowerTag cf.type) <;>
      cases hts : to_ts_sec cf.timestamp <;>
        simp [hb, hts, hle]
  · have h' : ¬ 0 < resolvedAmt cf := not_lt.mpr hle
    unfold dailyStep
    cases hb : broadMatch (lowerTag cf.type) <;>
      cases hts : to_ts_sec cf.timestamp <;>
        simp [hb, hts, h']
  · have h' : ¬ 0 < resolvedAmt cf := not_lt.mpr hle
    unfold dailyStepPatched
    cases hb : broadMatch (lowerTag cf.type) <;>
      cases hts : to_ts_sec cf.timestamp <;>
        simp [hb, hts, h']

theorem resolvedAmt_cfZeroRec : resolvedAmt cfZeroRec = 0 := by
  norm_num [resolvedAmt, cfZeroRec, qtyChain, pyOrOpt, pyOrD, to_f]

/-- Witness for C7 (amended) at the all-absent event `cfZeroRec`
(explicit amount absent, prices default to `0`, reconstruction `0`). -/
theorem C7_nonneg_and_no_contribution_witness :
    (0 ≤ resolvedAmt cfZeroRec) ∧
    weeklyStep 0 100 (0, 0) cfZeroRec = (0, 0) ∧
    dailyStep 0 100 ⟨0, 0, [], []⟩ cfZeroRec = .ok ⟨0, 0, [], []⟩ ∧
    dailyStepPatched 0 100 "k" ⟨0, 0, [], []⟩ cfZeroRec = ⟨0, 0, [], []⟩ :=
  have h := C7_nonneg_and_no_contribution cfZeroRec 0 100 "k" ⟨0, 0, [], []⟩ (0, 0)
  have hz : resolvedAmt cfZeroRec ≤ 0 := le_of_eq resolvedAmt_cfZeroRec
  ⟨h.1 rfl (by norm_num [cfZeroRec, to_f, pyOrD]) (by norm_num [cfZeroRec, to_f, pyOrD]),
    h.2.1 hz, h.2.2.1 hz, h.2.2.2 hz⟩

/-- C4: both fee aggregators use half-open membership on the normalized
timestamp: for a single type-matching event of positive resolved amount,
it is counted (weekly / patched daily) — equivalently, it reaches the
accumulation point, where the faithful daily model raises — exactly when
`start ≤ t ∧ t < end`; in particular `t = start` is in, `t = end` is
out. -/
theorem C4_half_open_window (cf : CashFlow) (s e ts : ℤ)
    (hts : to_ts_sec cf.timestamp = some ts) (hamt : 0 < resolvedAmt cf) :
    (broadMatch (lowerTag cf.type) = true →
      (calc_fee_usd_24h_from_cash_flows [singlePos cf] s e = Except.error () ↔
        s ≤ ts ∧ ts < e)) ∧
    (broadMatch (lowerTag cf.type) = true →
      ((calc_fee_usd_24h_patched [singlePos cf] s e).total_count = 1 ↔
        s ≤ ts ∧ ts < e)) ∧
    (strictMatch (lowerTag cf.type) = true →
      ((calc_fees_usd_in_window_from_cash_flows [singlePos cf] s e).2 = 1 ↔
        s ≤ ts ∧ ts < e)) := by
  refine ⟨fun hb => ?_, fun hb => ?_, fun hb => ?_⟩
  · by_cases hw : s ≤ ts ∧ ts < e
    · simp [calc_fee_usd_24h_from_cash_flows, singlePos, dailyStep, hts, hb,
        (inWindowSrc_iff s e ts).mpr hw, hamt, hw]
    · have hfalse : inWindowSrc s e ts = false := by
        rw [← Bool.not_eq_true, inWindowSrc_iff]
        exact hw
      simp [calc_fee_usd_24h_from_cash_flows, singlePos, dailyStep, hts, hb, hfalse, hw]
  · by_cases hw : s ≤ ts ∧ ts < e
    · simp [calc_fee_usd_24h_patched, singlePos, dailyStepPatched, hts, hb,
        (inWindowSrc_iff s e ts).mpr hw, hamt, hw]
    · have hfalse : inWindowSrc s e ts = false := by
        rw [← Bool.not_eq_true, inWindowSrc_iff]
        exact hw
      simp [calc_fee_usd_24h_patched, singlePos, dailyStepPatched, hts, hb, hfalse, hw]
  · by_cases hw : s ≤ ts ∧ ts < e
    · simp [calc_fees_usd_in_window_from_cash_flows, singlePos, weeklyStep, hts, hb,
        (inWindowSrc_iff s e ts).mpr hw, not_le.mpr hamt, hw]
    · have hfalse : inWindowSrc s e ts = false := by
        rw [← Bool.not_eq_true, inWindowSrc_iff]
        exact hw
      simp [calc_fees_usd_in_window_from_cash_flows, singlePos, weeklyStep, hts, hb,
        hfalse, hw]

/-- Witness for C4: the `$10` fee event at `t = 50` with window
`[50, 100)` — the start boundary is included. -/
theorem C4_half_open_window_witness :
    (calc_fees_usd_in_window_from_cash_flows [singlePos cfFee] 50 100).2 = 1 ∧
    calc_fee_usd_24h_from_cash_flows [singlePos cfFee] 50 100 = Except.error () := by
  have h := C4_half_open_window cfFee 50 100 50 (by decide) (by decide)
  exact ⟨(h.2.2 (by decide)).mpr (by omega), (h.1 (by decide)).mpr (by omega)⟩

theorem debtScan_eq_rawFold (cfs : List CashFlow) (s : Option ℚ × ℚ) :
    cfs.foldl debtScanStep s = (drEvents cfs).foldl rawStep s := by
  induction cfs generalizing s with
  | nil => rfl
  | cons cf rest ih =>
    rw [List.foldl_cons]
    by_cases hc : lowerTag cf.type = "lendor-borrow" ∨ lowerTag cf.type = "lendor-repay"
    · cases htd : to_f cf.total_debt with
      | none =>
        have h1 : debtScanStep s cf = s := by
          unfold debtScanStep
          rw [if_pos hc, htd]
        have h2 : drEvents (cf :: rest) = drEvents rest := by
          unfold drEvents
          rw [List.filterMap_cons]
          simp [hc, htd]
        rw [h1, h2, ih]
      | some td =>
        have h1 : debtScanStep s cf = rawStep s (td, pyOrD (to_f cf.timestamp) 0) := by
          unfold debtScanStep rawStep
          rw [if_pos hc, htd]
        have h2 : drEvents (cf :: rest) =
            (td, pyOrD (to_f cf.timestamp) 0) :: drEvents rest := by
          unfold drEvents
          rw [List.filterMap_cons]
          simp [hc, htd]
        rw [h1, h2, List.foldl_cons, ih]
    · have h1 : debtScanStep s cf = s := by
        unfold debtScanStep
        rw [if_neg hc]
      have h2 : drEvents (cf :: rest) = drEvents rest := by
        unfold drEvents
        rw [List.filterMap_cons]
        simp [hc]
      rw [h1, h2, ih]

theorem maxTsFrom_concat (l : List (ℚ × ℚ)) (e : ℚ × ℚ) :
    maxTsFrom (l ++ [e]) = max (maxTsFrom l) e.2 := by
  unfold maxTsFrom
  rw [List.foldl_append]
  rfl

theorem rawFold_eq_lastAtMax (evs : List (ℚ × ℚ)) :
    evs.foldl rawStep (none, -1) = (lastAtMax evs, maxTsFrom evs) := by
  induction evs using List.reverseRecOn with
  | nil => rfl
  | append_singleton l e ih =>
    rw [List.foldl_append, ih, List.foldl_cons, List.foldl_nil]
    by_cases h : e.2 ≥ maxTsFrom l
    · have h2 : maxTsFrom (l ++ [e]) = e.2 := by
        rw [maxTsFrom_concat]
        exact max_eq_right h
      have h3 : lastAtMax (l ++ [e]) = some e.1 := by
        unfold lastAtMax
        rw [h2, List.filter_append]
        simp
      rw [rawStep, if_pos h, h2, h3]
    · push_neg at h
      have h2 : maxTsFrom (l ++ [e]) = maxTsFrom l := by
        rw [maxTsFrom_concat]
        exact max_eq_left h.le
      have h3 : lastAtMax (l ++ [e]) = lastAtMax l := by
        unfold lastAtMax
        rw [h2, List.filter_append]
        have hne : decide (e.2 = maxTsFrom l) = false := by
          simp [ne_of_lt h]
        simp [hne]
      rw [rawStep, if_neg (not_le.mpr h), h2, h3]

theorem debtLatest_eq_lastAtMax (cfs : List CashFlow) :
    debtLatest cfs = lastAtMax (drEvents cfs) := by
  unfold debtLatest
  rw [debtScan_eq_rawFold, rawFold_eq_lastAtMax]

/-- C3 (amended): whenever the declarative selection — the `total_debt`
of the borrow/repay event with the greatest *raw* parsed timestamp
(unparsable/absent timestamps treated as `0`, ties broken by scan order,
last one wins, sentinel `-1`) — exists, the Debt Resolver returns
`max(total_debt, 0)` of exactly that event, overriding the
borrow-minus-repay fallback entirely.  Timestamps are compared raw, not
normalized to epoch seconds. -/
theorem C3_debt_latest_raw_ts (pos : Position) (td : ℚ)
    (h : lastAtMax (drEvents pos.cash_flows) = some td) :
    extract_repay_usd_from_cash_flows pos = max td 0 := by
  unfold extract_repay_usd_from_cash_flows
  rw [debtLatest_eq_lastAtMax, h]

/-- Witness for C3 (amended): the spec's own vector — `total_debt` 100
at `t = 10`, then 80 at `t = 20` — yields `max 80 0 = 80`. -/
theorem C3_debt_latest_raw_ts_witness :
    extract_repay_usd_from_cash_flows posSpecDebt = max 80 0 :=
  C3_debt_latest_raw_ts posSpecDebt 80 (by decide)

/-- C3 (counterexample): timestamps are *not* normalized to epoch
seconds before comparison.  With `total_debt = 80` stamped in seconds
(2023) and `total_debt = 100` stamped in milliseconds (an instant in
2020, raw value numerically larger), the code returns `100`, while the
claim's normalized selection (`debtLatestNormalized`) picks the 2023
snapshot `80` and so demands `max 80 0 = 80`. -/
theorem C3_counterexample :
    extract_repay_usd_from_cash_flows posC3 = 100 ∧
    debtLatestNormalized posC3.cash_flows = some 80 ∧
    extract_repay_usd_from_cash_flows posC3 ≠ max 80 0 := by
  refine ⟨by decide, by decide, by decide⟩

theorem tgStep_invariant (maxLen : ℕ) (st : List (List Char) × List Char) (line : List Char)
    (hchunks : ∀ c ∈ st.1, c.length ≤ maxLen ∨ '\n' ∉ c)
    (hbuf : st.2.length ≤ maxLen ∨ '\n' ∉ st.2)
    (hline : '\n' ∉ line) :
    (∀ c ∈ (tgStep maxLen st line).1, c.length ≤ maxLen ∨ '\n' ∉ c) ∧
    ((tgStep maxLen st line).2.length ≤ maxLen ∨ '\n' ∉ (tgStep maxLen st line).2) := by
  simp only [tgStep]
  by_cases hb : st.2 ≠ []
  · simp only [if_pos hb]
    by_cases hlen : (st.2 ++ '\n' :: line).length > maxLen
    · simp only [if_pos hlen]
      refine ⟨fun c hc => ?_, Or.inr hline⟩
      rcases List.mem_append.mp hc with h1 | h1
      · exact hchunks c h1
      · rw [List.mem_singleton.mp h1]
        exact hbuf
    · simp only [if_neg hlen]
      exact ⟨hchunks, Or.inl (by omega)⟩
  · simp only [if_neg hb]
    by_cases hlen : line.length > maxLen
    · simp only [if_pos hlen]
      refine ⟨fun c hc => ?_, Or.inr fun hmem => hline (List.drop_subset _ _ hmem)⟩
      rcases List.mem_append.mp hc with h1 | h1
      · exact hchunks c h1
      · rw [List.mem_singleton.mp h1]
        left
        calc (line.take maxLen).length = min maxLen line.length := List.length_take _ _
          _ ≤ maxLen := min_le_left _ _
    · simp only [if_neg hlen]
      exact ⟨hchunks, Or.inl (by omega)⟩

theorem tgFold_invariant (maxLen : ℕ) (lines : List (List Char))
    (st : List (List Char) × List Char)
    (hchunks : ∀ c ∈ st.1, c.length ≤ maxLen ∨ '\n' ∉ c)
    (hbuf : st.2.length ≤ maxLen ∨ '\n' ∉ st.2)
    (hlines : ∀ l ∈ lines, '\n' ∉ l) :
    (∀ c ∈ (lines.foldl (tgStep maxLen) st).1, c.length ≤ maxLen ∨ '\n' ∉ c) ∧
    ((lines.foldl (tgStep maxLen) st).2.length ≤ maxLen ∨
      '\n' ∉ (lines.foldl (tgStep maxLen) st).2) := by
  induction lines generalizing st with
  | nil => exact ⟨hchunks, hbuf⟩
  | cons line rest ih =>
    have hline : '\n' ∉ line := hlines line (List.mem_cons_self line rest)
    have hrest : ∀ l ∈ rest, '\n' ∉ l := fun l hl => hlines l (List.mem_cons_of_mem line hl)
    rw [List.foldl_cons]
    have hstep := tgStep_invariant maxLen st line hchunks hbuf hline
    exact ih (tgStep maxLen st line) hstep.1 hstep.2 hrest

/-- C8 (amended): `send_telegram` builds chunks on line boundaries, but
a chunk may exceed the 3800-character limit: an over-long line is
hard-split only when it starts a fresh chunk, and only its first 3800
characters are cut off — the remainder is emitted whole.  What holds is:
every chunk either fits in 3800 characters or contains no line boundary
(it is a fragment of, or exactly, a single over-long input line). -/
theorem C8_chunks_fit_or_single_line (lines : List (List Char))
    (h : ∀ l ∈ lines, '\n' ∉ l) :
    ∀ c ∈ send_telegram_chunks lines, c.length ≤ 3800 ∨ '\n' ∉ c := by
  intro c hc
  have hinv := tgFold_invariant 3800 lines ([], []) (by simp) (by simp) h
  simp only [send_telegram_chunks] at hc
  split at hc
  · rcases List.mem_append.mp hc with h1 | h1
    · exact hinv.1 c h1
    · rw [List.mem_singleton.mp h1]
      exact hinv.2
  · exact hinv.1 c hc

/-- Witness for C8 (amended) on a one-line input. -/
theorem C8_chunks_fit_or_single_line_witness :
    tinyLine.length ≤ 3800 ∨ '\n' ∉ tinyLine :=
  C8_chunks_fit_or_single_line [tinyLine] (by decide) tinyLine (by decide)

/-- C8 (counterexample): the claim that every produced message fits
within the 3800-character limit is false: for the text `"a\n" ++ 4000×'b'`
the second chunk is the whole 4000-character line — the over-long line
arrived while the buffer held `"a"`, so it was flushed as-is and never
hard-split. -/
theorem tg_two_lines (line : List Char) (hbig : 3800 < line.length) :
    send_telegram_chunks [['a'], line] = [['a'], line] := by
  have h1 : tgStep 3800 ([], []) ['a'] = ([], ['a']) := by
    norm_num [tgStep]
  have hne : (['a'] : List Char) ≠ [] := by simp
  have hc : (['a'] ++ '\n' :: line).length > 3800 := by
    simp only [List.length_append, List.length_cons, List.length_singleton]
    omega
  have h2 : tgStep 3800 ([], ['a']) line = ([['a']], line) := by
    simp only [tgStep, if_pos hne]
    rw [if_pos hc]
    simp
  have h3 : line ≠ [] := by
    intro h
    rw [h] at hbig
    simp at hbig
  simp only [send_telegram_chunks, List.foldl_cons, List.foldl_nil, h1, h2]
  rw [if_pos h3]
  rfl

theorem C8_counterexample :
    3800 < ((send_telegram_chunks [['a'], List.replicate 4000 'b']).getD 1 []).length := by
  have hbig : 3800 < (List.replicate 4000 'b').length := by
    rw [List.length_replicate]
    norm_num
  rw [tg_two_lines (List.replicate 4000 'b') hbig]
  exact hbig

theorem foldl_pair_add (f g : Position → ℚ) (l : List Position) (p : ℚ × ℚ) :
    l.foldl (fun acc pos => (acc.1 + f pos, acc.2 + g pos)) p =
      (p.1 + (l.map f).sum, p.2 + (l.map g).sum) := by
  induction l generalizing p with
  | nil => simp
  | cons x rest ih =>
    rw [List.foldl_cons, ih]
    simp [add_assoc]

theorem foldl_add (f : Position → ℚ) (l : List Position) (init : ℚ) :
    l.foldl (fun acc pos => acc + f pos) init = init + (l.map f).sum := by
  induction l generalizing init with
  | nil => simp
  | cons x rest ih =>
    rw [List.foldl_cons, ih]
    simp [add_assoc]

theorem build_daily_report_run_ok (op ex : List Position) (s e : ℤ) (D : DailySummary)
    (h : build_daily_report_run op ex s e = Except.ok D) :
    D.net_total = (op.map dailyNet).sum ∧
    D.unclaimed_total = (op.map dailyFeesValue).sum := by
  cases hagg : calc_fee_usd_24h_from_cash_flows (op ++ ex) s e with
  | error err =>
    simp [build_daily_report_run, hagg] at h
  | ok agg =>
    simp only [build_daily_report_run, hagg, Except.ok.injEq] at h
    constructor <;> simp [← h, dailySummaryFrom, foldl_pair_add]

/-- C9: in both report builders, realized fee income (and its count) is
aggregated over the *union* of open and exited positions, while the
group net total and the accrued/unclaimed total are sums over the open
positions only — the exited list never influences them.  Stated against
the faithful daily builder: it consults exactly the union aggregate and
propagates its raise (which is how an exited position's fee event
reaches the daily outcome, see C10); on success its fee figures are the
union aggregate's and its net/unclaimed totals are sums over the open
positions alone; and any two daily reports actually produced from the
same open list agree on net and unclaimed totals whatever the exited
lists were.  The weekly builder is total and is characterized
directly. -/
theorem C9_fee_over_union_net_over_open (op ex ex2 : List Position)
    (s e s2 e2 a2 : ℤ) (agg : DailyAgg) :
    (build_daily_report_run op ex s e = Except.error () ↔
      calc_fee_usd_24h_from_cash_flows (op ++ ex) s e = Except.error ()) ∧
    (calc_fee_usd_24h_from_cash_flows (op ++ ex) s e = Except.ok agg →
      build_daily_report_run op ex s e = Except.ok (dailySummaryFrom agg op)) ∧
    (dailySummaryFrom agg op).fee_usd = agg.total ∧
    (dailySummaryFrom agg op).fee_count = agg.total_count ∧
    (dailySummaryFrom agg op).net_total = (op.map dailyNet).sum ∧
    (dailySummaryFrom agg op).unclaimed_total = (op.map dailyFeesValue).sum ∧
    (∀ D D', build_daily_report_run op ex s e = Except.ok D →
      build_daily_report_run op ex2 s e = Except.ok D' →
      D.net_total = D'.net_total ∧ D.unclaimed_total = D'.unclaimed_total) ∧
    (build_weekly_summary op ex s2 e2 a2).fee_7d_usd =
      (calc_fees_usd_in_window_from_cash_flows (op ++ ex) s2 e2).1 ∧
    (build_weekly_summary op ex s2 e2 a2).tx_7d =
      (calc_fees_usd_in_window_from_cash_flows (op ++ ex) s2 e2).2 ∧
    (build_weekly_summary op ex s2 e2 a2).fee_all_time_usd =
      (calc_fees_usd_in_window_from_cash_flows (op ++ ex) a2 e2).1 ∧
    (build_weekly_summary op ex s2 e2 a2).net_total = (op.map dailyNet).sum ∧
    (build_weekly_summary op ex s2 e2 a2).net_total =
      (build_weekly_summary op ex2 s2 e2 a2).net_total := by
  refine ⟨?_, fun h => ?_, rfl, rfl, ?_, ?_, ?_, rfl, rfl, rfl, ?_, ?_⟩
  · cases hagg : calc_fee_usd_24h_from_cash_flows (op ++ ex) s e with
    | error err =>
      cases err
      simp [build_daily_report_run, hagg]
    | ok a =>
      simp [build_daily_report_run, hagg]
  · simp [build_daily_report_run, h]
  · simp [dailySummaryFrom, foldl_pair_add]
  · simp [dailySummaryFrom, foldl_pair_add]
  · intro D D' hD hD'
    have h1 := build_daily_report_run_ok op ex s e D hD
    have h2 := build_daily_report_run_ok op ex2 s e D' hD'
    exact ⟨h1.1.trans h2.1.symm, h1.2.trans h2.2.symm⟩
  · simp [build_weekly_summary, foldl_add]
  · simp [build_weekly_summary, foldl_add]

/-- Witness for C9: one open position (no pooled value, no events) and
one exited position holding the in-window `$10` fee event — the faithful
daily builder raises, showing the exited position is scanned; with the
window moved before the event the builder returns a report whose net
total is the sum over the open positions alone. -/
theorem C9_fee_over_union_net_over_open_witness :
    build_daily_report_run [posNoPool] [posFee] 0 100 = Except.error () ∧
    build_daily_report_run [posNoPool] [posFee] 0 10 =
      Except.ok (dailySummaryFrom ⟨0, 0, [], []⟩ [posNoPool]) ∧
    (dailySummaryFrom ⟨0, 0, [], []⟩ [posNoPool]).net_total = 0 := by
  have h100 := C9_fee_over_union_net_over_open [posNoPool] [posFee] [] 0 100 0 10 0
    ⟨0, 0, [], []⟩
  have h10 := C9_fee_over_union_net_over_open [posNoPool] [posFee] [] 0 10 0 10 0
    ⟨0, 0, [], []⟩
  refine ⟨h100.1.mpr rfl, h10.2.1 rfl, ?_⟩
  rw [h10.2.2.2.2.1]
  norm_num [dailyNet, calc_net_usd, posNoPool, to_f, pyOrD]

/-- C10: the daily aggregator cannot return the claimed totals at all —
`DEBUG_FEE_TRACE` (bot.py:381) is a function-local whose only assignment
(bot.py:335) is unreachable dead code after a `continue`, so the
function raises `UnboundLocalError` on the first event that passes every
filter, *before* any accumulation.  On the failing input (one position,
one in-window `$10` fees-collected event) the faithful model raises,
while the intended accumulation (the patched model) would return
`total = 10 = ` the sum of the per-position map `{"1" ↦ 10}`. -/
theorem C10_daily_aggregator_raises :
    calc_fee_usd_24h_from_cash_flows [posFee] 0 100 = Except.error () ∧
    calc_fee_usd_24h_patched [posFee] 0 100 = ⟨10, 1, [("1", 10)], [("1", 1)]⟩ := by
  constructor
  · rfl
  · have hb : broadMatch (lowerTag cfFee.type) = true := by decide
    have hts : to_ts_sec cfFee.timestamp = some 50 := by decide
    have hw : inWindowSrc 0 100 50 = true := by decide
    have hamt : resolvedAmt cfFee = 10 := rfl
    simp [calc_fee_usd_24h_patched, dailyStepPatched, posFee, hb, hts, hw, hamt,
      getVal, setVal]

end CBCBot
